import Mathlib

/-!
Verification of `src/keepkey/local/baremetal/check_bootloader.c`: the
boot-time bootloader integrity gate of the KeepKey firmware.

The C file has three functions:
  * `check_bootloader_kind` classifies the installed bootloader by the
    SHA-256 digest returned by `memory_bootloader_hash`, against a fixed
    allowlist of ten digests;
  * `apply_hotpatch` writes an 18-byte all-zero payload at a fixed flash
    address under a temporary unlock, and verifies it by read-back;
  * `check_bootloader` composes the two into a continue-or-halt decision.

Embedding choices:
  * The digest source `memory_bootloader_hash` is external; its result is
    modelled as a pair: the returned length and the 32-byte buffer content
    (a `List Nat` of byte values).
  * The C `enum BL_Kind` is an open integer type at the call site, so a
    classification is a `Nat`; the three enumerators are named constants.
  * Flash memory is a function `Nat → Nat` from addresses to byte values.
    The hardware collaborators (`memory_unlock`, `flash_unlock`,
    `flash_program`, `flash_lock`, `flash_clear_status_flags`) act on an
    explicit `FlashState` and append to an event log, so call order is
    observable.  The effect of `flash_program` on memory and its reported
    error status are a parameter (`Hardware`), since the hardware may fail.
  * `layout_warning_static` followed by `system_halt` is the terminal
    outcome `Outcome.Halted msg`; returning normally is `Outcome.Continue`.
-/

namespace CheckBootloader

/-- `enum BL_Kind`, value `BL_UNKNOWN = 0x0`.  The enum is open in C, so a
classification is a plain `Nat`. -/
def BL_UNKNOWN : Nat := 0x0

/-- `enum BL_Kind`, value `BL_HOTPATCHABLE = 0xa1f35c78`. -/
def BL_HOTPATCHABLE : Nat := 0xa1f35c78

/-- `enum BL_Kind`, value `BL_PATCH_APPLIED = 0x95c3a027`. -/
def BL_PATCH_APPLIED : Nat := 0x95c3a027

/-- Digest literal at line 44: v1.0.0, fixed. -/
def bl_v1_0_0_fixed : List Nat :=
  [0xf1, 0x3c, 0xe2, 0x28, 0xc0, 0xbb, 0x2b, 0xdb, 0xc5, 0x6b, 0xdc, 0xb5,
   0xf4, 0x56, 0x93, 0x67, 0xf8, 0xe3, 0x01, 0x10, 0x74, 0xcc, 0xc6, 0x33,
   0x31, 0x34, 0x8d, 0xeb, 0x49, 0x8f, 0x2d, 0x8f]

/-- Digest literal at line 47: v1.0.1, fixed. -/
def bl_v1_0_1_fixed : List Nat :=
  [0xec, 0x61, 0x88, 0x36, 0xf8, 0x64, 0x23, 0xdb, 0xd3, 0x11, 0x4c, 0x37,
   0xd6, 0xe3, 0xe4, 0xff, 0xdf, 0xb8, 0x7d, 0x9e, 0x4c, 0x61, 0x99, 0xcf,
   0x3e, 0x16, 0x3a, 0x67, 0xb2, 0x74, 0x98, 0xa2]

/-- Digest literal at line 50: v1.0.3, fixed. -/
def bl_v1_0_3_fixed : List Nat :=
  [0x4f, 0x9c, 0x38, 0xc1, 0xcd, 0x06, 0xf5, 0x9e, 0x8d, 0x4d, 0xe8, 0xe0,
   0xd3, 0x1c, 0xdd, 0x34, 0xc8, 0x31, 0x44, 0xd2, 0xdf, 0x55, 0x0c, 0x41,
   0x2e, 0x00, 0x2b, 0x4b, 0x35, 0xbd, 0x4f, 0xb3]

/-- Digest literal at line 53: v1.0.3_signed, fixed. -/
def bl_v1_0_3_signed_fixed : List Nat :=
  [0x91, 0x7d, 0x19, 0x52, 0x26, 0x0c, 0x9b, 0x89, 0xf3, 0xa9, 0x6b, 0xea,
   0x07, 0xee, 0xa4, 0x07, 0x4a, 0xfd, 0xcc, 0x0e, 0x8c, 0xdd, 0x5d, 0x06,
   0x4e, 0x36, 0x86, 0x8b, 0xdd, 0x68, 0xba, 0x7d]

/-- Digest literal at line 56: v1.0.4, fixed - SALT whitelabel. -/
def bl_v1_0_4_fixed : List Nat :=
  [0xfc, 0x4e, 0x5c, 0x4d, 0xc2, 0xe5, 0x12, 0x7b, 0x68, 0x14, 0xa3, 0xf6,
   0x94, 0x24, 0xc9, 0x36, 0xf1, 0xdc, 0x24, 0x1d, 0x1d, 0xaf, 0x2c, 0x5a,
   0x2d, 0x8f, 0x07, 0x28, 0xeb, 0x69, 0xd2, 0x0d]

/-- Digest literal at line 61: v1.0.0, unpatched. -/
def bl_v1_0_0_unpatched : List Nat :=
  [0x63, 0x97, 0xc4, 0x46, 0xf6, 0xb9, 0x00, 0x2a, 0x8b, 0x15, 0x0b, 0xf4,
   0xb9, 0xb4, 0xe0, 0xbb, 0x66, 0x80, 0x0e, 0xd0, 0x99, 0xb8, 0x81, 0xca,
   0x49, 0x70, 0x01, 0x39, 0xb0, 0x55, 0x9f, 0x10]

/-- Digest literal at line 64: v1.0.1, unpatched. -/
def bl_v1_0_1_unpatched : List Nat :=
  [0xd5, 0x44, 0xb5, 0xe0, 0x6b, 0x0c, 0x35, 0x5d, 0x68, 0xb8, 0x68, 0xac,
   0x75, 0x80, 0xe9, 0xba, 0xb2, 0xd2, 0x24, 0xa1, 0xe2, 0x44, 0x08, 0x81,
   0xcc, 0x1b, 0xca, 0x2b, 0x81, 0x67, 0x52, 0xd5]

/-- Digest literal at line 67: v1.0.3, unpatched. -/
def bl_v1_0_3_unpatched : List Nat :=
  [0x5a, 0xa5, 0x5e, 0x69, 0xf1, 0xd9, 0xaa, 0x50, 0x4d, 0xe6, 0x0f, 0xaf,
   0x22, 0xbe, 0x93, 0xcb, 0xd0, 0x3b, 0x13, 0x73, 0x2d, 0xcb, 0x07, 0xbb,
   0xc0, 0xb7, 0xf9, 0x1d, 0x42, 0xe1, 0x4c, 0xcc]

/-- Digest literal at line 70: v1.0.3_signed, unpatched. -/
def bl_v1_0_3_signed_unpatched : List Nat :=
  [0xcb, 0x22, 0x25, 0x48, 0xa3, 0x9f, 0xf6, 0xcb, 0xe2, 0xae, 0x2f, 0x02,
   0xc8, 0xd4, 0x31, 0xc9, 0xae, 0x0d, 0xf8, 0x50, 0xf8, 0x14, 0x44, 0x49,
   0x11, 0xf5, 0x21, 0xb9, 0x5a, 0xb0, 0x2f, 0x4c]

/-- Digest literal at line 73: v1.0.4, unpatched - SALT whitelabel. -/
def bl_v1_0_4_unpatched : List Nat :=
  [0x77, 0x0b, 0x30, 0xaa, 0xa0, 0xbe, 0x88, 0x4e, 0xe8, 0x62, 0x18, 0x59,
   0xf5, 0xd0, 0x55, 0x43, 0x7f, 0x89, 0x4a, 0x5c, 0x9c, 0x7c, 0xa2, 0x26,
   0x35, 0xe7, 0x02, 0x4e, 0x05, 0x98, 0x57, 0xb7]

/-- The static allowlist: the ten (digest, classification) pairs of the
comparison chain at lines 44-74, in source order. -/
def allowlist : List (List Nat × Nat) :=
  [(bl_v1_0_0_fixed, BL_PATCH_APPLIED),
   (bl_v1_0_1_fixed, BL_PATCH_APPLIED),
   (bl_v1_0_3_fixed, BL_PATCH_APPLIED),
   (bl_v1_0_3_signed_fixed, BL_PATCH_APPLIED),
   (bl_v1_0_4_fixed, BL_PATCH_APPLIED),
   (bl_v1_0_0_unpatched, BL_HOTPATCHABLE),
   (bl_v1_0_1_unpatched, BL_HOTPATCHABLE),
   (bl_v1_0_3_unpatched, BL_HOTPATCHABLE),
   (bl_v1_0_3_signed_unpatched, BL_HOTPATCHABLE),
   (bl_v1_0_4_unpatched, BL_HOTPATCHABLE)]

/-- `check_bootloader_kind` (lines 37-77).  `len` is the value returned by
`memory_bootloader_hash` and `bl_hash` the content of its 32-byte output
buffer; the chain of `memcmp`s over the full 32-byte buffer is byte-list
equality. -/
def check_bootloader_kind (len : Nat) (bl_hash : List Nat) : Nat :=
  if len ≠ 32 then BL_UNKNOWN
  else if bl_hash = bl_v1_0_0_fixed then BL_PATCH_APPLIED
  else if bl_hash = bl_v1_0_1_fixed then BL_PATCH_APPLIED
  else if bl_hash = bl_v1_0_3_fixed then BL_PATCH_APPLIED
  else if bl_hash = bl_v1_0_3_signed_fixed then BL_PATCH_APPLIED
  else if bl_hash = bl_v1_0_4_fixed then BL_PATCH_APPLIED
  else if bl_hash = bl_v1_0_0_unpatched then BL_HOTPATCHABLE
  else if bl_hash = bl_v1_0_1_unpatched then BL_HOTPATCHABLE
  else if bl_hash = bl_v1_0_3_unpatched then BL_HOTPATCHABLE
  else if bl_hash = bl_v1_0_3_signed_unpatched then BL_HOTPATCHABLE
  else if bl_hash = bl_v1_0_4_unpatched then BL_HOTPATCHABLE
  else BL_UNKNOWN

/-- One event per flash-control collaborator call made by `apply_hotpatch`. -/
inductive FlashEvent where
  | memory_unlock : FlashEvent
  | flash_unlock : FlashEvent
  | flash_program (addr : Nat) (data : List Nat) : FlashEvent
  | flash_lock : FlashEvent
  | flash_clear_status_flags : FlashEvent
deriving DecidableEq, Repr

/-- The state the flash-control collaborators act on: memory content,
the two protection locks, the hardware status flag, and the log of
collaborator calls made so far. -/
structure FlashState where
  mem : Nat → Nat
  memLocked : Bool
  flashLocked : Bool
  errorFlag : Bool
  log : List FlashEvent

/-- The hardware model: what `flash_program` does to memory and whether it
reports an error.  Left abstract because the flash may fail: a call may
write all, some, or none of the requested bytes, with any status. -/
structure Hardware where
  programEffect : (Nat → Nat) → Nat → List Nat → ((Nat → Nat) × Bool)

/-- Collaborator `memory_unlock()` (line 100): lift the memory-protection
lock. -/
def memory_unlock (s : FlashState) : FlashState :=
  { s with memLocked := false, log := s.log ++ [FlashEvent.memory_unlock] }

/-- Collaborator `flash_unlock()` (line 101): lift the flash write lock. -/
def flash_unlock (s : FlashState) : FlashState :=
  { s with flashLocked := false, log := s.log ++ [FlashEvent.flash_unlock] }

/-- Collaborator `flash_program(addr, data, len)` (line 104): memory and the
status flag change as the hardware model says. -/
def flash_program (hw : Hardware) (addr : Nat) (data : List Nat)
    (s : FlashState) : FlashState :=
  { s with
    mem := (hw.programEffect s.mem addr data).1,
    errorFlag := s.errorFlag || (hw.programEffect s.mem addr data).2,
    log := s.log ++ [FlashEvent.flash_program addr data] }

/-- Collaborator `flash_lock()` (line 107): restore the flash write lock. -/
def flash_lock (s : FlashState) : FlashState :=
  { s with flashLocked := true, log := s.log ++ [FlashEvent.flash_lock] }

/-- Collaborator `flash_clear_status_flags()` (line 110): drop the reported
error. -/
def flash_clear_status_flags (s : FlashState) : FlashState :=
  { s with errorFlag := false, log := s.log ++ [FlashEvent.flash_clear_status_flags] }

/-- Read `n` bytes of memory starting at `addr` (the `memcmp` against the
memory-mapped patch address at line 113 reads flash this way). -/
def readMem (m : Nat → Nat) (addr : Nat) : Nat → List Nat
  | 0 => []
  | n + 1 => m addr :: readMem m (addr + 1) n

/-- `hotpatch_addr` (line 86). -/
def hotpatch_addr : Nat := 0x802026c

/-- The `hotpatch[18]` payload (lines 88-97): the initializer lists sixteen
0x00 bytes (eight `movs r0, r0` pairs) and C zero-fills the remaining two,
so all eighteen bytes are zero. -/
def hotpatch : List Nat := List.replicate 18 0x00

/-- `apply_hotpatch` (lines 84-114): unlock, program the payload, re-lock,
clear the reported error, then verify by reading the patch address back and
comparing with the payload.  Returns the verification result and the final
state. -/
def apply_hotpatch (hw : Hardware) (s : FlashState) : Bool × FlashState :=
  let s1 := memory_unlock s
  let s2 := flash_unlock s1
  let s3 := flash_program hw hotpatch_addr hotpatch s2
  let s4 := flash_lock s3
  let s5 := flash_clear_status_flags s4
  (decide (readMem s5.mem hotpatch_addr hotpatch.length = hotpatch), s5)

/-- The observable outcome of the boot gate: return control to the boot
sequence, or show a static warning and halt (`layout_warning_static`
followed by `system_halt`, which never returns). -/
inductive Outcome where
  | Continue : Outcome
  | Halted (msg : String) : Outcome
deriving DecidableEq, Repr

/-- The decision chain of `check_bootloader` (lines 118-131) on the
classification value it obtained. -/
def boot_decision (hw : Hardware) (kind : Nat) (s : FlashState) :
    Outcome × FlashState :=
  if kind = BL_HOTPATCHABLE then
    let r := apply_hotpatch hw s
    if r.1 = false then (Outcome.Halted "Hotpatch failed. Contact support.", r.2)
    else (Outcome.Continue, r.2)
  else if kind = BL_UNKNOWN then
    (Outcome.Halted "Unknown bootloader. Contact support.", s)
  else if kind = BL_PATCH_APPLIED then
    (Outcome.Continue, s)
  else
    (Outcome.Halted "B/L check failed. Reboot Device!", s)

/-- `check_bootloader` (lines 116-132): classify, then decide. -/
def check_bootloader (hw : Hardware) (len : Nat) (bl_hash : List Nat)
    (s : FlashState) : Outcome × FlashState :=
  boot_decision hw (check_bootloader_kind len bl_hash) s

/-- Write `d` into memory `m` starting at address `a`: the memory effect of
a flash program operation that takes effect. -/
def writeBytes (m : Nat → Nat) (a : Nat) (d : List Nat) : Nat → Nat :=
  fun x => if a ≤ x ∧ x < a + d.length then d.getD (x - a) 0 else m x

/-- A concrete hardware model whose programming always takes effect and
never reports an error. -/
def goodHw : Hardware := ⟨fun m a d => (writeBytes m a d, false)⟩

/-- A concrete hardware model whose programming takes effect but always
reports an error. -/
def noisyHw : Hardware := ⟨fun m a d => (writeBytes m a d, true)⟩

/-- A concrete hardware model on which programming has no effect at all
(the write never lands) and reports an error. -/
def deadHw : Hardware := ⟨fun m _ _ => (m, true)⟩

/-- A concrete initial state: all of flash reads 0xff, both locks held, no
error pending, empty log. -/
def initState : FlashState := ⟨fun _ => 0xff, true, true, false, []⟩

/-! ## Helper lemmas -/

/-- `readMem` only looks at the window it reads. -/
theorem readMem_congr (m1 m2 : Nat → Nat) (n : Nat) :
    ∀ a, (∀ i, i < n → m1 (a + i) = m2 (a + i)) →
      readMem m1 a n = readMem m2 a n := by
  induction n with
  | zero => intro a _; rfl
  | succ k ih =>
    intro a h
    have h0 : m1 a = m2 a := by simpa using h 0 (Nat.succ_pos k)
    have ht : readMem m1 (a + 1) k = readMem m2 (a + 1) k := by
      apply ih
      intro i hi
      have hx := h (i + 1) (by omega)
      have e : a + (i + 1) = a + 1 + i := by omega
      rw [e] at hx
      exact hx
    simp [readMem, h0, ht]

/-- `writeBytes` inside the written window. -/
theorem writeBytes_at (m : Nat → Nat) (a : Nat) (d : List Nat) (i : Nat)
    (hi : i < d.length) : writeBytes m a d (a + i) = d.getD i 0 := by
  have hc : a ≤ a + i ∧ a + i < a + d.length := by omega
  simp [writeBytes, hc]

/-- Reading back a window that was just written yields the written bytes. -/
theorem readMem_writeBytes (d : List Nat) : ∀ (m : Nat → Nat) (a : Nat),
    readMem (writeBytes m a d) a d.length = d := by
  induction d with
  | nil => intro m a; rfl
  | cons x t ih =>
    intro m a
    have hhead : writeBytes m a (x :: t) a = x := by
      simpa using writeBytes_at m a (x :: t) 0 (by simp)
    have htail : readMem (writeBytes m a (x :: t)) (a + 1) t.length
        = readMem (writeBytes m (a + 1) t) (a + 1) t.length := by
      apply readMem_congr
      intro i hi
      have h1 := writeBytes_at m a (x :: t) (i + 1) (by simpa using hi)
      have e : a + (i + 1) = a + 1 + i := by omega
      rw [e] at h1
      have h2 := writeBytes_at m (a + 1) t i hi
      simp only [List.getD_cons_succ] at h1
      rw [h1, h2]
    calc readMem (writeBytes m a (x :: t)) a (x :: t).length
        = writeBytes m a (x :: t) a
            :: readMem (writeBytes m a (x :: t)) (a + 1) t.length := rfl
      _ = x :: readMem (writeBytes m (a + 1) t) (a + 1) t.length := by
            rw [hhead, htail]
      _ = x :: t := by rw [ih]

/-- The verification result of `apply_hotpatch`, unfolded. -/
theorem apply_hotpatch_fst (hw : Hardware) (s : FlashState) :
    (apply_hotpatch hw s).1 =
      decide (readMem (hw.programEffect s.mem hotpatch_addr hotpatch).1
        hotpatch_addr hotpatch.length = hotpatch) := rfl

/-- The final memory of `apply_hotpatch`, unfolded. -/
theorem apply_hotpatch_mem (hw : Hardware) (s : FlashState) :
    (apply_hotpatch hw s).2.mem =
      (hw.programEffect s.mem hotpatch_addr hotpatch).1 := rfl

/-- The collaborator-call log of `apply_hotpatch`, unfolded. -/
theorem apply_hotpatch_log (hw : Hardware) (s : FlashState) :
    (apply_hotpatch hw s).2.log = s.log ++
      [FlashEvent.memory_unlock, FlashEvent.flash_unlock,
       FlashEvent.flash_program hotpatch_addr hotpatch,
       FlashEvent.flash_lock, FlashEvent.flash_clear_status_flags] := by
  simp [apply_hotpatch, memory_unlock, flash_unlock, flash_program,
    flash_lock, flash_clear_status_flags]

set_option maxHeartbeats 1600000 in
/-- `check_bootloader_kind` only ever returns one of the three enumerators. -/
theorem check_bootloader_kind_closed (len : Nat) (bl_hash : List Nat) :
    check_bootloader_kind len bl_hash = BL_UNKNOWN
    ∨ check_bootloader_kind len bl_hash = BL_HOTPATCHABLE
    ∨ check_bootloader_kind len bl_hash = BL_PATCH_APPLIED := by
  unfold check_bootloader_kind
  repeat first
    | exact Or.inl rfl
    | exact Or.inr (Or.inl rfl)
    | exact Or.inr (Or.inr rfl)
    | split

/-! ## Claim theorems -/

/-- C2: for every digest listed in the static allowlist (the five fixed
digests and the five unpatched digests of the source table), when the digest
source returns that digest with length 32, `check_bootloader_kind` returns
exactly the classification the table associates with it: `BL_PATCH_APPLIED`
for the fixed entries and `BL_HOTPATCHABLE` for the unpatched ones. -/
theorem allowlist_entries_classified :
    check_bootloader_kind 32 bl_v1_0_0_fixed = BL_PATCH_APPLIED
    ∧ check_bootloader_kind 32 bl_v1_0_1_fixed = BL_PATCH_APPLIED
    ∧ check_bootloader_kind 32 bl_v1_0_3_fixed = BL_PATCH_APPLIED
    ∧ check_bootloader_kind 32 bl_v1_0_3_signed_fixed = BL_PATCH_APPLIED
    ∧ check_bootloader_kind 32 bl_v1_0_4_fixed = BL_PATCH_APPLIED
    ∧ check_bootloader_kind 32 bl_v1_0_0_unpatched = BL_HOTPATCHABLE
    ∧ check_bootloader_kind 32 bl_v1_0_1_unpatched = BL_HOTPATCHABLE
    ∧ check_bootloader_kind 32 bl_v1_0_3_unpatched = BL_HOTPATCHABLE
    ∧ check_bootloader_kind 32 bl_v1_0_3_signed_unpatched = BL_HOTPATCHABLE
    ∧ check_bootloader_kind 32 bl_v1_0_4_unpatched = BL_HOTPATCHABLE
    ∧ allowlist =
      [(bl_v1_0_0_fixed, BL_PATCH_APPLIED), (bl_v1_0_1_fixed, BL_PATCH_APPLIED),
       (bl_v1_0_3_fixed, BL_PATCH_APPLIED), (bl_v1_0_3_signed_fixed, BL_PATCH_APPLIED),
       (bl_v1_0_4_fixed, BL_PATCH_APPLIED), (bl_v1_0_0_unpatched, BL_HOTPATCHABLE),
       (bl_v1_0_1_unpatched, BL_HOTPATCHABLE), (bl_v1_0_3_unpatched, BL_HOTPATCHABLE),
       (bl_v1_0_3_signed_unpatched, BL_HOTPATCHABLE),
       (bl_v1_0_4_unpatched, BL_HOTPATCHABLE)] := by
  refine ⟨rfl, rfl, rfl, rfl, rfl, rfl, rfl, rfl, rfl, rfl, rfl⟩

/-- C3: every 32-byte digest that is byte-for-byte equal to none of the ten
digests of the static allowlist is classified `BL_UNKNOWN`. -/
theorem unknown_digest_unverified (bl_hash : List Nat)
    (hlen : bl_hash.length = 32)
    (h : bl_hash ∉ allowlist.map Prod.fst) :
    check_bootloader_kind 32 bl_hash = BL_UNKNOWN := by
  simp only [allowlist, List.map_cons, List.map_nil, List.mem_cons,
    List.mem_singleton, not_or] at h
  obtain ⟨h1, h2, h3, h4, h5, h6, h7, h8, h9, h10⟩ := h
  simp [check_bootloader_kind, h1, h2, h3, h4, h5, h6, h7, h8, h9, h10]

/-- C3 witness: the all-zero 32-byte digest is in no allowlist entry and is
classified `BL_UNKNOWN`. -/
theorem unknown_digest_unverified_witness :
    ((List.replicate 32 0).length = 32
      ∧ List.replicate 32 0 ∉ allowlist.map Prod.fst)
    ∧ check_bootloader_kind 32 (List.replicate 32 0) = BL_UNKNOWN :=
  ⟨⟨by decide, by decide⟩,
   unknown_digest_unverified (List.replicate 32 0) (by decide) (by decide)⟩

/-- C4: whenever the digest source reports a length other than 32,
`check_bootloader_kind` returns `BL_UNKNOWN`, whatever the buffer holds. -/
theorem bad_length_unverified (len : Nat) (bl_hash : List Nat)
    (h : len ≠ 32) : check_bootloader_kind len bl_hash = BL_UNKNOWN := by
  simp [check_bootloader_kind, h]

/-- C4 witness: length 16 is classified `BL_UNKNOWN` even though the buffer
holds an allowlisted digest, so the content is ignored. -/
theorem bad_length_unverified_witness :
    (16 : Nat) ≠ 32 ∧ check_bootloader_kind 16 bl_v1_0_0_unpatched = BL_UNKNOWN :=
  ⟨by decide, bad_length_unverified 16 bl_v1_0_0_unpatched (by decide)⟩

/-- C5: for every hardware behaviour and every starting state,
`apply_hotpatch` returns true exactly when the 18 bytes read back from the
patch address in the final (re-locked) state equal the payload; and for any
second hardware model whose programming has the same memory effect but any
other reported error status, the returned value is the same — the reported
status has no influence. -/
theorem apply_hotpatch_verifies_readback (hw hw2 : Hardware) (s : FlashState)
    (h : ∀ m a d, (hw.programEffect m a d).1 = (hw2.programEffect m a d).1) :
    ((apply_hotpatch hw s).1 = true ↔
      readMem (apply_hotpatch hw s).2.mem hotpatch_addr hotpatch.length
        = hotpatch)
    ∧ (apply_hotpatch hw s).1 = (apply_hotpatch hw2 s).1 := by
  constructor
  · rw [apply_hotpatch_fst, apply_hotpatch_mem]
    exact decide_eq_true_iff
  · rw [apply_hotpatch_fst, apply_hotpatch_fst, h]

/-- C5 witness: a hardware model that reports an error and one that does
not, with the same memory effect, give the same verification result, and
the result matches the read-back comparison. -/
theorem apply_hotpatch_verifies_readback_witness :
    (∀ m a d, (noisyHw.programEffect m a d).1 = (goodHw.programEffect m a d).1)
    ∧ (((apply_hotpatch noisyHw initState).1 = true ↔
        readMem (apply_hotpatch noisyHw initState).2.mem hotpatch_addr
          hotpatch.length = hotpatch)
      ∧ (apply_hotpatch noisyHw initState).1 = (apply_hotpatch goodHw initState).1) :=
  ⟨fun _ _ _ => rfl,
   apply_hotpatch_verifies_readback noisyHw goodHw initState (fun _ _ _ => rfl)⟩

/-- C6: on every execution of `apply_hotpatch`, whatever the hardware does,
the collaborators are called in the strict order `memory_unlock`,
`flash_unlock`, `flash_program`, `flash_lock`, `flash_clear_status_flags`;
the lock and clear calls are unconditional, so in the final state the flash
write lock is restored and the status flag is cleared. -/
theorem apply_hotpatch_call_order (hw : Hardware) (s : FlashState) :
    (apply_hotpatch hw s).2.log = s.log ++
      [FlashEvent.memory_unlock, FlashEvent.flash_unlock,
       FlashEvent.flash_program hotpatch_addr hotpatch,
       FlashEvent.flash_lock, FlashEvent.flash_clear_status_flags]
    ∧ (apply_hotpatch hw s).2.flashLocked = true
    ∧ (apply_hotpatch hw s).2.errorFlag = false :=
  ⟨apply_hotpatch_log hw s, rfl, rfl⟩

/-- C8: when the programming operation takes effect (the hardware writes the
requested bytes, whatever error status it reports), `apply_hotpatch` is
idempotent: a second invocation leaves the same memory content at the patch
address as the first, and both invocations return true. -/
theorem apply_hotpatch_idempotent (hw : Hardware) (s : FlashState)
    (h : ∀ m a d, (hw.programEffect m a d).1 = writeBytes m a d) :
    readMem (apply_hotpatch hw (apply_hotpatch hw s).2).2.mem hotpatch_addr
        hotpatch.length
      = readMem (apply_hotpatch hw s).2.mem hotpatch_addr hotpatch.length
    ∧ (apply_hotpatch hw s).1 = true
    ∧ (apply_hotpatch hw (apply_hotpatch hw s).2).1 = true := by
  have m1 : (apply_hotpatch hw s).2.mem = writeBytes s.mem hotpatch_addr hotpatch := by
    rw [apply_hotpatch_mem, h]
  have m2 : (apply_hotpatch hw (apply_hotpatch hw s).2).2.mem
      = writeBytes (writeBytes s.mem hotpatch_addr hotpatch) hotpatch_addr hotpatch := by
    rw [apply_hotpatch_mem, h, m1]
  have r1 : readMem (apply_hotpatch hw s).2.mem hotpatch_addr hotpatch.length
      = hotpatch := by
    rw [m1]; exact readMem_writeBytes hotpatch s.mem hotpatch_addr
  have r2 : readMem (apply_hotpatch hw (apply_hotpatch hw s).2).2.mem
      hotpatch_addr hotpatch.length = hotpatch := by
    rw [m2]; exact readMem_writeBytes hotpatch _ hotpatch_addr
  refine ⟨by rw [r1, r2], ?_, ?_⟩
  · rw [apply_hotpatch_fst, h]
    simp [readMem_writeBytes]
  · rw [apply_hotpatch_fst, h, m1]
    simp [readMem_writeBytes]

/-- C8 witness: on hardware whose writes land, starting from the all-0xff
flash, applying the hotpatch twice leaves the patch address with the same
content as applying it once, and both applications verify true. -/
theorem apply_hotpatch_idempotent_witness :
    (∀ m a d, (goodHw.programEffect m a d).1 = writeBytes m a d)
    ∧ (readMem (apply_hotpatch goodHw (apply_hotpatch goodHw initState).2).2.mem
          hotpatch_addr hotpatch.length
        = readMem (apply_hotpatch goodHw initState).2.mem hotpatch_addr
            hotpatch.length
      ∧ (apply_hotpatch goodHw initState).1 = true
      ∧ (apply_hotpatch goodHw (apply_hotpatch goodHw initState).2).1 = true) :=
  ⟨fun _ _ _ => rfl,
   apply_hotpatch_idempotent goodHw initState (fun _ _ _ => rfl)⟩

/-- C1: for every value the classifier can return, `check_bootloader` halts
with "Unknown bootloader. Contact support." exactly when the classification
is `BL_UNKNOWN`, halts with "Hotpatch failed. Contact support." exactly when
it is `BL_HOTPATCHABLE` and `apply_hotpatch` returns false, and returns
control exactly when it is `BL_PATCH_APPLIED`, or `BL_HOTPATCHABLE` with
`apply_hotpatch` returning true. -/
theorem check_bootloader_outcomes (hw : Hardware) (len : Nat)
    (bl_hash : List Nat) (s : FlashState) :
    ((check_bootloader hw len bl_hash s).1 =
        Outcome.Halted "Unknown bootloader. Contact support."
      ↔ check_bootloader_kind len bl_hash = BL_UNKNOWN)
    ∧ ((check_bootloader hw len bl_hash s).1 =
        Outcome.Halted "Hotpatch failed. Contact support."
      ↔ check_bootloader_kind len bl_hash = BL_HOTPATCHABLE
        ∧ (apply_hotpatch hw s).1 = false)
    ∧ ((check_bootloader hw len bl_hash s).1 = Outcome.Continue
      ↔ check_bootloader_kind len bl_hash = BL_PATCH_APPLIED
        ∨ (check_bootloader_kind len bl_hash = BL_HOTPATCHABLE
            ∧ (apply_hotpatch hw s).1 = true)) := by
  unfold check_bootloader boot_decision
  rcases check_bootloader_kind_closed len bl_hash with hk | hk | hk <;>
    rw [hk] <;>
    cases hb : (apply_hotpatch hw s).1 <;>
      simp [hb, BL_UNKNOWN, BL_HOTPATCHABLE, BL_PATCH_APPLIED]

/-- C7: `check_bootloader` runs `apply_hotpatch` — and hence touches flash
at all — exactly when the classification is `BL_HOTPATCHABLE`; on every
other classification the flash state (memory, locks, status flag and
collaborator log) is returned unchanged. -/
theorem hotpatch_invoked_iff_repairable (hw : Hardware) (len : Nat)
    (bl_hash : List Nat) (s : FlashState) :
    (check_bootloader hw len bl_hash s).2 =
      (if check_bootloader_kind len bl_hash = BL_HOTPATCHABLE
       then (apply_hotpatch hw s).2 else s) := by
  unfold check_bootloader boot_decision
  by_cases hk : check_bootloader_kind len bl_hash = BL_HOTPATCHABLE
  · rw [if_pos hk, if_pos hk]
    cases hb : (apply_hotpatch hw s).1 <;> simp [hb]
  · rw [if_neg hk, if_neg hk]
    split
    · rfl
    · split
      · rfl
      · rfl

/-- C9 counterexample: a classification value outside the closed set (the
value 1) does not produce the same observable outcome as `BL_UNKNOWN`: the
defensive branch halts with "B/L check failed. Reboot Device!", not with
the unknown-bootloader warning. -/
theorem boot_gate_defensive_message_differs :
    (boot_decision goodHw 1 initState).1
        = Outcome.Halted "B/L check failed. Reboot Device!"
    ∧ (boot_decision goodHw BL_UNKNOWN initState).1
        = Outcome.Halted "Unknown bootloader. Contact support."
    ∧ (boot_decision goodHw 1 initState).1
        ≠ (boot_decision goodHw BL_UNKNOWN initState).1 := by
  refine ⟨rfl, rfl, ?_⟩
  intro hcontra
  rw [show (boot_decision goodHw 1 initState).1
        = Outcome.Halted "B/L check failed. Reboot Device!" from rfl,
    show (boot_decision goodHw BL_UNKNOWN initState).1
        = Outcome.Halted "Unknown bootloader. Contact support." from rfl] at hcontra
  simp at hcontra

/-- C9 amended: every classification value outside the closed set
{`BL_UNKNOWN`, `BL_HOTPATCHABLE`, `BL_PATCH_APPLIED`} is fail-closed — the
boot decision halts without touching the state — but with the generic
warning "B/L check failed. Reboot Device!", which differs from the
unknown-bootloader warning shown for `BL_UNKNOWN`. -/
theorem boot_gate_defensive_fail_closed (hw : Hardware) (kind : Nat)
    (s : FlashState) (h1 : kind ≠ BL_UNKNOWN) (h2 : kind ≠ BL_HOTPATCHABLE)
    (h3 : kind ≠ BL_PATCH_APPLIED) :
    (boot_decision hw kind s).1 = Outcome.Halted "B/L check failed. Reboot Device!"
    ∧ (boot_decision hw kind s).2 = s := by
  unfold boot_decision
  rw [if_neg h2, if_neg h1, if_neg h3]
  exact ⟨rfl, rfl⟩

/-- C9 amended witness: the out-of-range classification value 1 halts with
the generic warning and leaves the state untouched. -/
theorem boot_gate_defensive_fail_closed_witness :
    ((1 : Nat) ≠ BL_UNKNOWN ∧ (1 : Nat) ≠ BL_HOTPATCHABLE
      ∧ (1 : Nat) ≠ BL_PATCH_APPLIED)
    ∧ ((boot_decision goodHw 1 initState).1
          = Outcome.Halted "B/L check failed. Reboot Device!"
      ∧ (boot_decision goodHw 1 initState).2 = initState) :=
  ⟨⟨by decide, by decide, by decide⟩,
   boot_gate_defensive_fail_closed goodHw 1 initState
     (by decide) (by decide) (by decide)⟩

/-- C10: the codomain of the classifier is closed — it returns one of the three
enumerators on every input — and therefore the defensive final else branch
of `check_bootloader` is unreachable: the composed routine never produces
the generic "B/L check failed. Reboot Device!" outcome. -/
theorem classifier_closed_defensive_unreachable (len : Nat) (bl_hash : List Nat) :
    (check_bootloader_kind len bl_hash = BL_UNKNOWN
      ∨ check_bootloader_kind len bl_hash = BL_HOTPATCHABLE
      ∨ check_bootloader_kind len bl_hash = BL_PATCH_APPLIED)
    ∧ ∀ (hw : Hardware) (s : FlashState),
        (check_bootloader hw len bl_hash s).1 ≠
          Outcome.Halted "B/L check failed. Reboot Device!" := by
  refine ⟨check_bootloader_kind_closed len bl_hash, ?_⟩
  intro hw s
  unfold check_bootloader boot_decision
  rcases check_bootloader_kind_closed len bl_hash with hk | hk | hk <;>
    rw [hk] <;>
    cases hb : (apply_hotpatch hw s).1 <;>
      simp [hb, BL_UNKNOWN, BL_HOTPATCHABLE, BL_PATCH_APPLIED]

end CheckBootloader
